import Mathlib

/-!
Shallow embedding of src/main.rs of the mic tool: a straight-line
program that clones a mount subtree with open_tree, optionally switches
the mount namespace of the calling thread with setns, prepares the
destination directory and attaches the clone with move_mount.

Every effectful kernel/libc call is modelled by an oracle (Env) fixing
whether that call succeeds, and a run is recorded as the list of calls
actually attempted (Event) together with the process exit status.  The
kernel error text interpolated into a diagnostic is abstracted away;
each diagnostic keeps the fixed format text and the interpolated path.
-/

namespace Mic

/-- Command-line arguments of the tool (struct Args in main.rs). -/
structure Args where
  target : String
  source : String
  mount_namespace : String
  deriving DecidableEq, Repr

/-- Outcome oracle: one Boolean per effectful call of main.rs, telling
whether that call, if attempted, succeeds.  The first four fields model
the results of the Path::exists and Path::is_dir checks. -/
structure Env where
  targetExists : Bool
  targetIsDir : Bool
  sourceExists : Bool
  sourceIsDir : Bool
  openTreeOk : Bool
  openOrigNsOk : Bool
  openTargetNsOk : Bool
  setnsTargetOk : Bool
  createDirOk : Bool
  setPermsOk : Bool
  moveMountOk : Bool
  setnsRestoreOk : Bool
  deriving DecidableEq, Repr

/-- A mount-namespace file handle: the original namespace captured from
/proc/self/ns/mnt, or a target namespace opened from the given path. -/
inductive NsHandle where
  | orig : NsHandle
  | target (path : String) : NsHandle
  deriving DecidableEq, Repr

/-- One attempted call of main.rs.  openTree records the path and the
OPEN_TREE_CLONE and AT_RECURSIVE flags; setns records the handle and the
raw flags word; moveMount records the origin path of the cloned tree fd,
the from-path, the to-path and the MOVE_MOUNT_F_EMPTY_PATH flag. -/
inductive Event where
  | openTree (path : String) (cloneFlag recursiveFlag : Bool) : Event
  | openFile (path : String) : Event
  | setns (handle : NsHandle) (flags : Nat) : Event
  | createDirAll (path : String) : Event
  | setPermissions (path : String) (mode : Nat) : Event
  | moveMount (fromTree fromPath toPath : String) (emptyPathFlag : Bool) : Event
  | eprintln (msg : String) : Event
  deriving DecidableEq, Repr

/-- CLONE_NEWNS, the mount-namespace flag passed to every setns call. -/
def CLONE_NEWNS : Nat := 0x00020000

/-- The well-known path of the calling thread's own mount namespace. -/
def procSelfNsMnt : String := "/proc/self/ns/mnt"

/-- Lines 84-112 of main.rs: create the target directory, chmod it to
0755, move_mount the cloned tree onto it, then setns back to the
original namespace; each failure prints a diagnostic and exits 1.
The accumulator t is the trace of the calls already attempted. -/
def attachPhase (args : Args) (env : Env) (t : List Event) : List Event × Nat :=
  if !env.createDirOk then
    (t ++ [.createDirAll args.target,
      .eprintln ("failed to create target directory " ++ args.target)], 1)
  else if !env.setPermsOk then
    (t ++ [.createDirAll args.target, .setPermissions args.target 0o755,
      .eprintln ("failed to set permissions on target directory " ++ args.target)], 1)
  else if !env.moveMountOk then
    (t ++ [.createDirAll args.target, .setPermissions args.target 0o755,
      .moveMount args.source "" args.target true,
      .eprintln "move_mount failed"], 1)
  else if !env.setnsRestoreOk then
    (t ++ [.createDirAll args.target, .setPermissions args.target 0o755,
      .moveMount args.source "" args.target true,
      .setns .orig CLONE_NEWNS,
      .eprintln "setns back to original namespace failed"], 1)
  else
    (t ++ [.createDirAll args.target, .setPermissions args.target 0o755,
      .moveMount args.source "" args.target true,
      .setns .orig CLONE_NEWNS], 0)

/-- fn main of main.rs as a trace-producing function: validate target
and source, open_tree the source with OPEN_TREE_CLONE and AT_RECURSIVE,
open /proc/self/ns/mnt, optionally open the namespace path and setns
into it when the mount_namespace argument is non-empty, then run the
attach phase.  Each failure prints a diagnostic and exits 1. -/
def main (args : Args) (env : Env) : List Event × Nat :=
  if !env.targetExists || !env.targetIsDir then
    ([.eprintln ("target does not exist or is not a directory: " ++ args.target)], 1)
  else if !env.sourceExists || !env.sourceIsDir then
    ([.eprintln ("source does not exist or is not a directory: " ++ args.source)], 1)
  else if !env.openTreeOk then
    ([.openTree args.source true true,
      .eprintln ("open source " ++ args.source ++ " failed")], 1)
  else if !env.openOrigNsOk then
    ([.openTree args.source true true, .openFile procSelfNsMnt,
      .eprintln "open original mount namespace failed"], 1)
  else if args.mount_namespace.isEmpty then
    attachPhase args env
      [.openTree args.source true true, .openFile procSelfNsMnt]
  else if !env.openTargetNsOk then
    ([.openTree args.source true true, .openFile procSelfNsMnt,
      .openFile args.mount_namespace,
      .eprintln ("open mount namespace " ++ args.mount_namespace ++ " failed")], 1)
  else if !env.setnsTargetOk then
    ([.openTree args.source true true, .openFile procSelfNsMnt,
      .openFile args.mount_namespace,
      .setns (.target args.mount_namespace) CLONE_NEWNS,
      .eprintln ("setns to " ++ args.mount_namespace ++ " failed")], 1)
  else
    attachPhase args env
      [.openTree args.source true true, .openFile procSelfNsMnt,
       .openFile args.mount_namespace,
       .setns (.target args.mount_namespace) CLONE_NEWNS]

/-- The move_mount attach call. -/
def isAttach : Event → Bool
  | .moveMount _ _ _ _ => true
  | _ => false

/-- A setns call into a target namespace (the namespace switch). -/
def isTargetSetns : Event → Bool
  | .setns (.target _) _ => true
  | _ => false

/-- A setns call back to the captured original namespace (the restore). -/
def isRestore : Event → Bool
  | .setns .orig _ => true
  | _ => false

/-- The capture of the original namespace: opening /proc/self/ns/mnt. -/
def isNsCapture : Event → Bool
  | .openFile p => p == procSelfNsMnt
  | _ => false

/-- A diagnostic printed to the error stream. -/
def isDiag : Event → Bool
  | .eprintln _ => true
  | _ => false

/-- Any call that touches kernel mount or namespace state, or the
filesystem: clone, setns, mkdir, chmod or attach. -/
def isMutationCall : Event → Bool
  | .openTree _ _ _ => true
  | .setns _ _ => true
  | .createDirAll _ => true
  | .setPermissions _ _ => true
  | .moveMount _ _ _ _ => true
  | _ => false

/-- An environment in which every call succeeds. -/
def okEnv : Env :=
  ⟨true, true, true, true, true, true, true, true, true, true, true, true⟩

/-- A run with no namespace switch requested. -/
def argsNoNs : Args := ⟨"/t", "/s", ""⟩

/-- A run that requests a switch into /proc/7/ns/mnt. -/
def argsWithNs : Args := ⟨"/t", "/s", "/proc/7/ns/mnt"⟩

/-- An otherwise-healthy run whose target path does not exist. -/
def c1Env : Env := { okEnv with targetExists := false }

/-- Claim C1 is false as stated: on an invocation whose target path does
not denote an existing directory, the tool exits with status 1 without
ever calling create_dir_all (or any other kernel mutation), rather than
creating the destination and succeeding. -/
theorem C1_counterexample :
    (Mic.main argsNoNs c1Env).2 = 1 ∧
    Event.createDirAll argsNoNs.target ∉ (Mic.main argsNoNs c1Env).1 ∧
    (Mic.main argsNoNs c1Env).1.countP isMutationCall = 0 := by decide

/-- Claim C1 amended: an invocation whose target path does not denote an
existing directory is rejected up front: the tool prints a diagnostic
naming the target and exits with status 1, attempting no call at all;
the recursive 0755 creation of the destination happens only after this
validation has passed. -/
theorem C1_amended (args : Args) (env : Env)
    (h : env.targetExists = false ∨ env.targetIsDir = false) :
    Mic.main args env =
      ([Event.eprintln ("target does not exist or is not a directory: " ++ args.target)], 1) := by
  rcases h with h | h <;> simp [Mic.main, h]

/-- Witness for the amended claim C1 at a concrete input. -/
theorem C1_amended_witness :
    Mic.main argsNoNs c1Env =
      ([Event.eprintln ("target does not exist or is not a directory: " ++ argsNoNs.target)], 1) :=
  C1_amended argsNoNs c1Env (Or.inl rfl)

/-- An otherwise-healthy run whose move_mount call fails. -/
def c2Env : Env := { okEnv with moveMountOk := false }

/-- Claim C2 is false as stated: in a run that switches into a target
namespace and reaches the attach step, when move_mount fails the process
exits without attempting the restore at all (zero setns calls back to
the original namespace), not exactly once regardless of outcome. -/
theorem C2_counterexample :
    (Mic.main argsWithNs c2Env).1.countP isTargetSetns = 1 ∧
    (Mic.main argsWithNs c2Env).1.countP isAttach = 1 ∧
    (Mic.main argsWithNs c2Env).2 = 1 ∧
    (Mic.main argsWithNs c2Env).1.countP isRestore = 0 := by decide

/-- Claim C2 amended: in a run that switches into a target namespace and
reaches the attach step, the restore of the original namespace is
attempted exactly once, immediately after the attach, when the attach
succeeds; when the attach fails the process exits with status 1 without
attempting any restore. -/
theorem C2_amended (args : Args) (env : Env)
    (hte : env.targetExists = true) (htd : env.targetIsDir = true)
    (hse : env.sourceExists = true) (hsd : env.sourceIsDir = true)
    (hot : env.openTreeOk = true) (hoo : env.openOrigNsOk = true)
    (hns : args.mount_namespace.isEmpty = false)
    (hon : env.openTargetNsOk = true) (hst : env.setnsTargetOk = true)
    (hcd : env.createDirOk = true) (hsp : env.setPermsOk = true) :
    (env.moveMountOk = true →
      ∃ post, (Mic.main args env).1 =
        [Event.openTree args.source true true,
         Event.openFile procSelfNsMnt,
         Event.openFile args.mount_namespace,
         Event.setns (NsHandle.target args.mount_namespace) CLONE_NEWNS,
         Event.createDirAll args.target,
         Event.setPermissions args.target 0o755,
         Event.moveMount args.source "" args.target true,
         Event.setns NsHandle.orig CLONE_NEWNS] ++ post ∧
        post.countP isRestore = 0) ∧
    (env.moveMountOk = false →
      (Mic.main args env).2 = 1 ∧
      (Mic.main args env).1.countP isAttach = 1 ∧
      (Mic.main args env).1.countP isRestore = 0) := by
  constructor
  · intro hm
    cases hr : env.setnsRestoreOk
    · exact ⟨[Event.eprintln "setns back to original namespace failed"],
        by simp [Mic.main, attachPhase, hte, htd, hse, hsd, hot, hoo, hns, hon,
          hst, hcd, hsp, hm, hr],
        by decide⟩
    · exact ⟨[],
        by simp [Mic.main, attachPhase, hte, htd, hse, hsd, hot, hoo, hns, hon,
          hst, hcd, hsp, hm, hr],
        by decide⟩
  · intro hm
    refine ⟨?_, ?_, ?_⟩ <;>
      simp [Mic.main, attachPhase, hte, htd, hse, hsd, hot, hoo, hns, hon,
        hst, hcd, hsp, hm, isAttach, isRestore, List.countP_append, List.countP_cons]

/-- Witness for the amended claim C2 at a concrete input where the
attach succeeds: the restore follows the attach and is the only one. -/
theorem C2_amended_witness :
    ∃ post, (Mic.main argsWithNs okEnv).1 =
      [Event.openTree argsWithNs.source true true,
       Event.openFile procSelfNsMnt,
       Event.openFile argsWithNs.mount_namespace,
       Event.setns (NsHandle.target argsWithNs.mount_namespace) CLONE_NEWNS,
       Event.createDirAll argsWithNs.target,
       Event.setPermissions argsWithNs.target 0o755,
       Event.moveMount argsWithNs.source "" argsWithNs.target true,
       Event.setns NsHandle.orig CLONE_NEWNS] ++ post ∧
      post.countP isRestore = 0 :=
  (C2_amended argsWithNs okEnv rfl rfl rfl rfl rfl rfl (by decide) rfl rfl rfl rfl).1 rfl

/-- The position of each operation in the order the code actually runs:
clone, open a namespace file (the capture of /proc/self/ns/mnt and the
optional open of the target namespace path share this rank), switch,
create, chmod, attach, restore; a diagnostic, when one occurs, is
always last. -/
def stepIndex : Event → Nat
  | .openTree _ _ _ => 0
  | .openFile _ => 1
  | .setns (.target _) _ => 2
  | .createDirAll _ => 3
  | .setPermissions _ _ => 4
  | .moveMount _ _ _ _ => 5
  | .setns .orig _ => 6
  | .eprintln _ => 7

/-- Claim C3 is false as stated: on a fully succeeding invocation the
very first call is the open_tree clone of the source, and the single
capture of the original namespace (opening /proc/self/ns/mnt) is not
among the first events, so the namespace-context capture does not happen
before the source-tree clone. -/
theorem C3_counterexample :
    (Mic.main argsNoNs okEnv).1.take 1 = [Event.openTree argsNoNs.source true true] ∧
    (Mic.main argsNoNs okEnv).1.countP isNsCapture = 1 ∧
    ((Mic.main argsNoNs okEnv).1.take 1).countP isNsCapture = 0 := by decide

/-- Claim C3 amended: the operations execute in the linear order clone
the source tree first, then capture the original namespace context, then
(optionally) open and switch into the target namespace, then prepare the
destination, then attach, then (optionally) restore; in particular the
source-tree clone happens before the namespace-context capture.  First
conjunct: on every invocation, mapping each attempted call to its rank
in that order yields a monotone list.  Second conjunct: when every call
succeeds, the trace is exactly that linear sequence. -/
theorem C3_amended (args : Args) (env : Env) :
    List.Chain' (· ≤ ·) ((Mic.main args env).1.map stepIndex) ∧
    (env = okEnv → Mic.main args env =
      (Event.openTree args.source true true ::
       Event.openFile procSelfNsMnt ::
       ((if args.mount_namespace.isEmpty then []
         else [Event.openFile args.mount_namespace,
               Event.setns (NsHandle.target args.mount_namespace) CLONE_NEWNS]) ++
        [Event.createDirAll args.target,
         Event.setPermissions args.target 0o755,
         Event.moveMount args.source "" args.target true,
         Event.setns NsHandle.orig CLONE_NEWNS]), 0)) := by
  constructor
  · cases hTE : env.targetExists
    · simp [Mic.main, hTE, stepIndex]
    cases hTD : env.targetIsDir
    · simp [Mic.main, hTE, hTD, stepIndex]
    cases hSE : env.sourceExists
    · simp [Mic.main, hTE, hTD, hSE, stepIndex]
    cases hSD : env.sourceIsDir
    · simp [Mic.main, hTE, hTD, hSE, hSD, stepIndex]
    cases hOT : env.openTreeOk
    · simp [Mic.main, hTE, hTD, hSE, hSD, hOT, stepIndex]
    cases hOO : env.openOrigNsOk
    · simp [Mic.main, hTE, hTD, hSE, hSD, hOT, hOO, stepIndex]
    cases hNS : args.mount_namespace.isEmpty
    · cases hON : env.openTargetNsOk
      · simp [Mic.main, hTE, hTD, hSE, hSD, hOT, hOO, hNS, hON, stepIndex]
      cases hST : env.setnsTargetOk
      · simp [Mic.main, hTE, hTD, hSE, hSD, hOT, hOO, hNS, hON, hST, stepIndex]
      cases hCD : env.createDirOk
      · simp [Mic.main, attachPhase, hTE, hTD, hSE, hSD, hOT, hOO, hNS, hON, hST,
          hCD, stepIndex]
      cases hSP : env.setPermsOk
      · simp [Mic.main, attachPhase, hTE, hTD, hSE, hSD, hOT, hOO, hNS, hON, hST,
          hCD, hSP, stepIndex]
      cases hMM : env.moveMountOk
      · simp [Mic.main, attachPhase, hTE, hTD, hSE, hSD, hOT, hOO, hNS, hON, hST,
          hCD, hSP, hMM, stepIndex]
      cases hRS : env.setnsRestoreOk <;>
        simp [Mic.main, attachPhase, hTE, hTD, hSE, hSD, hOT, hOO, hNS, hON, hST,
          hCD, hSP, hMM, hRS, stepIndex]
    · cases hCD : env.createDirOk
      · simp [Mic.main, attachPhase, hTE, hTD, hSE, hSD, hOT, hOO, hNS, hCD, stepIndex]
      cases hSP : env.setPermsOk
      · simp [Mic.main, attachPhase, hTE, hTD, hSE, hSD, hOT, hOO, hNS, hCD, hSP,
          stepIndex]
      cases hMM : env.moveMountOk
      · simp [Mic.main, attachPhase, hTE, hTD, hSE, hSD, hOT, hOO, hNS, hCD, hSP,
          hMM, stepIndex]
      cases hRS : env.setnsRestoreOk <;>
        simp [Mic.main, attachPhase, hTE, hTD, hSE, hSD, hOT, hOO, hNS, hCD, hSP,
          hMM, hRS, stepIndex]
  · intro h
    subst h
    cases hNS : args.mount_namespace.isEmpty <;>
      simp [Mic.main, attachPhase, okEnv, hNS]

/-- Evaluation of the amended claim C3 at a concrete input: the full
trace of a successful switching run visits the ranks in order. -/
theorem C3_amended_check :
    ((Mic.main argsWithNs okEnv).1.map stepIndex) = [0, 1, 1, 2, 3, 4, 5, 6] := by decide

/-- Claim C4: when the mount-namespace argument is the empty string, no
namespace switch is requested: the program never opens a file at that
argument and never calls setns into a target namespace, so the attach
(when reached) runs in the original mount namespace of the caller. -/
theorem C4_noSwitchOnEmpty (args : Args) (env : Env)
    (h : args.mount_namespace = "") :
    Event.openFile args.mount_namespace ∉ (Mic.main args env).1 ∧
    (Mic.main args env).1.countP isTargetSetns = 0 := by
  have hNS : ("" : String).isEmpty = true := by decide
  cases hTE : env.targetExists
  · simp [Mic.main, h, hNS, hTE, isTargetSetns]
  cases hTD : env.targetIsDir
  · simp [Mic.main, h, hNS, hTE, hTD, isTargetSetns]
  cases hSE : env.sourceExists
  · simp [Mic.main, h, hNS, hTE, hTD, hSE, isTargetSetns]
  cases hSD : env.sourceIsDir
  · simp [Mic.main, h, hNS, hTE, hTD, hSE, hSD, isTargetSetns]
  cases hOT : env.openTreeOk
  · simp [Mic.main, h, hNS, hTE, hTD, hSE, hSD, hOT, isTargetSetns, procSelfNsMnt]
  cases hOO : env.openOrigNsOk
  · simp [Mic.main, h, hNS, hTE, hTD, hSE, hSD, hOT, hOO, isTargetSetns, procSelfNsMnt]
  cases hCD : env.createDirOk
  · simp [Mic.main, attachPhase, h, hNS, hTE, hTD, hSE, hSD, hOT, hOO, hCD,
      isTargetSetns, procSelfNsMnt]
  cases hSP : env.setPermsOk
  · simp [Mic.main, attachPhase, h, hNS, hTE, hTD, hSE, hSD, hOT, hOO, hCD, hSP,
      isTargetSetns, procSelfNsMnt]
  cases hMM : env.moveMountOk
  · simp [Mic.main, attachPhase, h, hNS, hTE, hTD, hSE, hSD, hOT, hOO, hCD, hSP, hMM,
      isTargetSetns, procSelfNsMnt]
  cases hRS : env.setnsRestoreOk <;>
    simp [Mic.main, attachPhase, h, hNS, hTE, hTD, hSE, hSD, hOT, hOO, hCD, hSP, hMM,
      hRS, isTargetSetns, procSelfNsMnt]

/-- Witness for claim C4 at a concrete input. -/
theorem C4_noSwitchOnEmpty_witness :
    Event.openFile argsNoNs.mount_namespace ∉ (Mic.main argsNoNs okEnv).1 ∧
    (Mic.main argsNoNs okEnv).1.countP isTargetSetns = 0 :=
  C4_noSwitchOnEmpty argsNoNs okEnv rfl

/-- Every setns call of the run passes exactly CLONE_NEWNS, the
mount-namespace flag, never any other namespace kind. -/
def setnsFlagsOk : Event → Bool
  | .setns _ f => f == CLONE_NEWNS
  | _ => true

/-- Claim C5: on an invocation with a non-empty mount-namespace argument
that reaches the switch step, the program opens that path and requests
the membership change with the mount-namespace flag only: the setns into
the target namespace carries exactly CLONE_NEWNS, and every setns call
of the whole run carries exactly CLONE_NEWNS (never the network, PID or
any other namespace flag). -/
theorem C5_switchIsMountNsOnly (args : Args) (env : Env)
    (hTE : env.targetExists = true) (hTD : env.targetIsDir = true)
    (hSE : env.sourceExists = true) (hSD : env.sourceIsDir = true)
    (hOT : env.openTreeOk = true) (hOO : env.openOrigNsOk = true)
    (hNS : args.mount_namespace.isEmpty = false)
    (hON : env.openTargetNsOk = true) :
    Event.openFile args.mount_namespace ∈ (Mic.main args env).1 ∧
    Event.setns (NsHandle.target args.mount_namespace) CLONE_NEWNS ∈ (Mic.main args env).1 ∧
    (Mic.main args env).1.all setnsFlagsOk = true := by
  cases hST : env.setnsTargetOk
  · simp [Mic.main, hTE, hTD, hSE, hSD, hOT, hOO, hNS, hON, hST, setnsFlagsOk]
  cases hCD : env.createDirOk
  · simp [Mic.main, attachPhase, hTE, hTD, hSE, hSD, hOT, hOO, hNS, hON, hST, hCD,
      setnsFlagsOk]
  cases hSP : env.setPermsOk
  · simp [Mic.main, attachPhase, hTE, hTD, hSE, hSD, hOT, hOO, hNS, hON, hST, hCD,
      hSP, setnsFlagsOk]
  cases hMM : env.moveMountOk
  · simp [Mic.main, attachPhase, hTE, hTD, hSE, hSD, hOT, hOO, hNS, hON, hST, hCD,
      hSP, hMM, setnsFlagsOk]
  cases hRS : env.setnsRestoreOk <;>
    simp [Mic.main, attachPhase, hTE, hTD, hSE, hSD, hOT, hOO, hNS, hON, hST, hCD,
      hSP, hMM, hRS, setnsFlagsOk]

/-- Witness for claim C5 at a concrete input. -/
theorem C5_switchIsMountNsOnly_witness :
    Event.openFile argsWithNs.mount_namespace ∈ (Mic.main argsWithNs okEnv).1 ∧
    Event.setns (NsHandle.target argsWithNs.mount_namespace) CLONE_NEWNS ∈ (Mic.main argsWithNs okEnv).1 ∧
    (Mic.main argsWithNs okEnv).1.all setnsFlagsOk = true :=
  C5_switchIsMountNsOnly argsWithNs okEnv rfl rfl rfl rfl rfl rfl (by decide) rfl

/-- An otherwise-healthy run whose source path is not a directory. -/
def c6Env : Env := { okEnv with sourceIsDir := false }

/-- Claim C6: when the target exists but is not a directory, or the
source does not exist or is not a directory, the tool exits with status
1 after printing exactly one diagnostic naming the offending path, and
attempts no kernel mutation at all: no clone, no setns, no directory
creation, no chmod, no attach. -/
theorem C6_preconditionReject (args : Args) (env : Env)
    (h : (env.targetExists = false ∨ env.targetIsDir = false) ∨
         (env.targetExists = true ∧ env.targetIsDir = true ∧
          (env.sourceExists = false ∨ env.sourceIsDir = false))) :
    (Mic.main args env).2 = 1 ∧
    ((Mic.main args env).1 =
        [Event.eprintln ("target does not exist or is not a directory: " ++ args.target)] ∨
     (Mic.main args env).1 =
        [Event.eprintln ("source does not exist or is not a directory: " ++ args.source)]) ∧
    (Mic.main args env).1.countP isMutationCall = 0 := by
  rcases h with (h | h) | ⟨h1, h2, h3 | h3⟩
  · simp [Mic.main, h, isMutationCall]
  · simp [Mic.main, h, isMutationCall]
  · simp [Mic.main, h1, h2, h3, isMutationCall]
  · simp [Mic.main, h1, h2, h3, isMutationCall]

/-- Witness for claim C6 at a concrete input whose source is a plain
file rather than a directory. -/
theorem C6_preconditionReject_witness :
    (Mic.main argsNoNs c6Env).2 = 1 ∧
    ((Mic.main argsNoNs c6Env).1 =
        [Event.eprintln ("target does not exist or is not a directory: " ++ argsNoNs.target)] ∨
     (Mic.main argsNoNs c6Env).1 =
        [Event.eprintln ("source does not exist or is not a directory: " ++ argsNoNs.source)]) ∧
    (Mic.main argsNoNs c6Env).1.countP isMutationCall = 0 :=
  C6_preconditionReject argsNoNs c6Env (Or.inr ⟨rfl, rfl, Or.inr rfl⟩)

/-- The calls of the optional namespace-switch step: none when the
mount-namespace argument is empty, otherwise the open of the namespace
path followed by the setns into it. -/
def switchEvents (args : Args) : List Event :=
  if args.mount_namespace.isEmpty then []
  else [Event.openFile args.mount_namespace,
        Event.setns (NsHandle.target args.mount_namespace) CLONE_NEWNS]

/-- The calls attempted before destination preparation on a run that
reaches it: clone, capture, and the optional switch. -/
def reachPre (args : Args) : List Event :=
  Event.openTree args.source true true ::
  Event.openFile procSelfNsMnt :: switchEvents args

/-- Claim C7: a run that reaches destination preparation first calls
create_dir_all on the target, then chmod to exactly 0755, in that
order, before any attach; a failure of either step exits with status 1
and no attach is attempted, and when both succeed the attach follows
immediately. -/
theorem C7_destinationPrep (args : Args) (env : Env)
    (hTE : env.targetExists = true) (hTD : env.targetIsDir = true)
    (hSE : env.sourceExists = true) (hSD : env.sourceIsDir = true)
    (hOT : env.openTreeOk = true) (hOO : env.openOrigNsOk = true)
    (hSW : args.mount_namespace.isEmpty = true ∨
           (env.openTargetNsOk = true ∧ env.setnsTargetOk = true)) :
    (reachPre args).countP isAttach = 0 ∧
    (env.createDirOk = false →
      Mic.main args env = (reachPre args ++ [Event.createDirAll args.target,
        Event.eprintln ("failed to create target directory " ++ args.target)], 1)) ∧
    (env.createDirOk = true → env.setPermsOk = false →
      Mic.main args env = (reachPre args ++ [Event.createDirAll args.target,
        Event.setPermissions args.target 0o755,
        Event.eprintln ("failed to set permissions on target directory " ++ args.target)], 1)) ∧
    (env.createDirOk = true → env.setPermsOk = true →
      ∃ post, (Mic.main args env).1 = reachPre args ++ [Event.createDirAll args.target,
        Event.setPermissions args.target 0o755,
        Event.moveMount args.source "" args.target true] ++ post) := by
  have hmain : Mic.main args env = attachPhase args env (reachPre args) := by
    rcases hSW with hNS | ⟨hON, hST⟩
    · simp [Mic.main, reachPre, switchEvents, hTE, hTD, hSE, hSD, hOT, hOO, hNS]
    · cases hNS : args.mount_namespace.isEmpty <;>
        simp [Mic.main, reachPre, switchEvents, hTE, hTD, hSE, hSD, hOT, hOO,
          hNS, hON, hST]
  refine ⟨?_, ?_, ?_, ?_⟩
  · cases hNS : args.mount_namespace.isEmpty <;>
      simp [reachPre, switchEvents, hNS, isAttach]
  · intro hCD
    rw [hmain]
    simp [attachPhase, hCD]
  · intro hCD hSP
    rw [hmain]
    simp [attachPhase, hCD, hSP]
  · intro hCD hSP
    rw [hmain]
    cases hMM : env.moveMountOk
    · exact ⟨[Event.eprintln "move_mount failed"],
        by simp [attachPhase, hCD, hSP, hMM]⟩
    · cases hRS : env.setnsRestoreOk
      · exact ⟨[Event.setns NsHandle.orig CLONE_NEWNS,
          Event.eprintln "setns back to original namespace failed"],
          by simp [attachPhase, hCD, hSP, hMM, hRS]⟩
      · exact ⟨[Event.setns NsHandle.orig CLONE_NEWNS],
          by simp [attachPhase, hCD, hSP, hMM, hRS]⟩

/-- Witness for claim C7 at a concrete input. -/
theorem C7_destinationPrep_witness :
    (reachPre argsNoNs).countP isAttach = 0 ∧
    (okEnv.createDirOk = false →
      Mic.main argsNoNs okEnv = (reachPre argsNoNs ++ [Event.createDirAll argsNoNs.target,
        Event.eprintln ("failed to create target directory " ++ argsNoNs.target)], 1)) ∧
    (okEnv.createDirOk = true → okEnv.setPermsOk = false →
      Mic.main argsNoNs okEnv = (reachPre argsNoNs ++ [Event.createDirAll argsNoNs.target,
        Event.setPermissions argsNoNs.target 0o755,
        Event.eprintln ("failed to set permissions on target directory " ++ argsNoNs.target)], 1)) ∧
    (okEnv.createDirOk = true → okEnv.setPermsOk = true →
      ∃ post, (Mic.main argsNoNs okEnv).1 = reachPre argsNoNs ++ [Event.createDirAll argsNoNs.target,
        Event.setPermissions argsNoNs.target 0o755,
        Event.moveMount argsNoNs.source "" argsNoNs.target true] ++ post) :=
  C7_destinationPrep argsNoNs okEnv rfl rfl rfl rfl rfl rfl (Or.inl rfl)

/-- Claim C8: on every invocation, any open_tree call carries the source
path together with both OPEN_TREE_CLONE and AT_RECURSIVE (a recursive,
detached clone); whenever a setns into a target namespace occurs in the
trace, the very first call of the run is that open_tree clone, so the
clone is acquired before any namespace switch; and every invocation
passing validation does request the clone. -/
theorem C8_cloneRecursiveDetachedFirst (args : Args) (env : Env) :
    (∀ p c r, Event.openTree p c r ∈ (Mic.main args env).1 →
      p = args.source ∧ c = true ∧ r = true) ∧
    (∀ p f, Event.setns (NsHandle.target p) f ∈ (Mic.main args env).1 →
      (Mic.main args env).1.head? = some (Event.openTree args.source true true)) ∧
    (env.targetExists = true → env.targetIsDir = true → env.sourceExists = true →
      env.sourceIsDir = true →
      Event.openTree args.source true true ∈ (Mic.main args env).1) := by
  cases hTE : env.targetExists
  · simp [Mic.main, hTE]
  cases hTD : env.targetIsDir
  · simp [Mic.main, hTE, hTD]
  cases hSE : env.sourceExists
  · simp [Mic.main, hTE, hTD, hSE]
  cases hSD : env.sourceIsDir
  · simp [Mic.main, hTE, hTD, hSE, hSD]
  cases hOT : env.openTreeOk
  · simp [Mic.main, hTE, hTD, hSE, hSD, hOT]
  cases hOO : env.openOrigNsOk
  · simp [Mic.main, hTE, hTD, hSE, hSD, hOT, hOO]
  cases hNS : args.mount_namespace.isEmpty
  · cases hON : env.openTargetNsOk
    · simp [Mic.main, hTE, hTD, hSE, hSD, hOT, hOO, hNS, hON]
    cases hST : env.setnsTargetOk
    · simp [Mic.main, hTE, hTD, hSE, hSD, hOT, hOO, hNS, hON, hST]
    cases hCD : env.createDirOk
    · simp [Mic.main, attachPhase, hTE, hTD, hSE, hSD, hOT, hOO, hNS, hON, hST, hCD]
    cases hSP : env.setPermsOk
    · simp [Mic.main, attachPhase, hTE, hTD, hSE, hSD, hOT, hOO, hNS, hON, hST,
        hCD, hSP]
    cases hMM : env.moveMountOk
    · simp [Mic.main, attachPhase, hTE, hTD, hSE, hSD, hOT, hOO, hNS, hON, hST,
        hCD, hSP, hMM]
    cases hRS : env.setnsRestoreOk <;>
      simp [Mic.main, attachPhase, hTE, hTD, hSE, hSD, hOT, hOO, hNS, hON, hST,
        hCD, hSP, hMM, hRS]
  · cases hCD : env.createDirOk
    · simp [Mic.main, attachPhase, hTE, hTD, hSE, hSD, hOT, hOO, hNS, hCD]
    cases hSP : env.setPermsOk
    · simp [Mic.main, attachPhase, hTE, hTD, hSE, hSD, hOT, hOO, hNS, hCD, hSP]
    cases hMM : env.moveMountOk
    · simp [Mic.main, attachPhase, hTE, hTD, hSE, hSD, hOT, hOO, hNS, hCD, hSP, hMM]
    cases hRS : env.setnsRestoreOk <;>
      simp [Mic.main, attachPhase, hTE, hTD, hSE, hSD, hOT, hOO, hNS, hCD, hSP,
        hMM, hRS]

/-- The conjunction of the success of every step the invocation
attempts: the validation results, the clone, the capture, the switch
when requested, the preparation, the attach and the restore. -/
def allStepsOk (args : Args) (env : Env) : Bool :=
  env.targetExists && env.targetIsDir && env.sourceExists && env.sourceIsDir &&
  env.openTreeOk && env.openOrigNsOk &&
  (args.mount_namespace.isEmpty || (env.openTargetNsOk && env.setnsTargetOk)) &&
  env.createDirOk && env.setPermsOk && env.moveMountOk && env.setnsRestoreOk

/-- Claim C9: the exit status is 0 exactly when every attempted step
succeeded and 1 otherwise, and a run prints exactly one diagnostic when
it fails and none when it succeeds; in particular a restore failure
after a successful attach also exits 1, with no distinct code. -/
theorem C9_exitStatus (args : Args) (env : Env) :
    (Mic.main args env).2 = (if allStepsOk args env then 0 else 1) ∧
    (Mic.main args env).1.countP isDiag = (if allStepsOk args env then 0 else 1) := by
  cases hTE : env.targetExists
  · simp [Mic.main, allStepsOk, hTE, isDiag]
  cases hTD : env.targetIsDir
  · simp [Mic.main, allStepsOk, hTE, hTD, isDiag]
  cases hSE : env.sourceExists
  · simp [Mic.main, allStepsOk, hTE, hTD, hSE, isDiag]
  cases hSD : env.sourceIsDir
  · simp [Mic.main, allStepsOk, hTE, hTD, hSE, hSD, isDiag]
  cases hOT : env.openTreeOk
  · simp [Mic.main, allStepsOk, hTE, hTD, hSE, hSD, hOT, isDiag]
  cases hOO : env.openOrigNsOk
  · simp [Mic.main, allStepsOk, hTE, hTD, hSE, hSD, hOT, hOO, isDiag]
  cases hNS : args.mount_namespace.isEmpty
  · cases hON : env.openTargetNsOk
    · simp [Mic.main, allStepsOk, hTE, hTD, hSE, hSD, hOT, hOO, hNS, hON, isDiag]
    cases hST : env.setnsTargetOk
    · simp [Mic.main, allStepsOk, hTE, hTD, hSE, hSD, hOT, hOO, hNS, hON, hST, isDiag]
    cases hCD : env.createDirOk
    · simp [Mic.main, attachPhase, allStepsOk, hTE, hTD, hSE, hSD, hOT, hOO, hNS,
        hON, hST, hCD, isDiag]
    cases hSP : env.setPermsOk
    · simp [Mic.main, attachPhase, allStepsOk, hTE, hTD, hSE, hSD, hOT, hOO, hNS,
        hON, hST, hCD, hSP, isDiag]
    cases hMM : env.moveMountOk
    · simp [Mic.main, attachPhase, allStepsOk, hTE, hTD, hSE, hSD, hOT, hOO, hNS,
        hON, hST, hCD, hSP, hMM, isDiag]
    cases hRS : env.setnsRestoreOk <;>
      simp [Mic.main, attachPhase, allStepsOk, hTE, hTD, hSE, hSD, hOT, hOO, hNS,
        hON, hST, hCD, hSP, hMM, hRS, isDiag]
  · cases hCD : env.createDirOk
    · simp [Mic.main, attachPhase, allStepsOk, hTE, hTD, hSE, hSD, hOT, hOO, hNS,
        hCD, isDiag]
    cases hSP : env.setPermsOk
    · simp [Mic.main, attachPhase, allStepsOk, hTE, hTD, hSE, hSD, hOT, hOO, hNS,
        hCD, hSP, isDiag]
    cases hMM : env.moveMountOk
    · simp [Mic.main, attachPhase, allStepsOk, hTE, hTD, hSE, hSD, hOT, hOO, hNS,
        hCD, hSP, hMM, isDiag]
    cases hRS : env.setnsRestoreOk <;>
      simp [Mic.main, attachPhase, allStepsOk, hTE, hTD, hSE, hSD, hOT, hOO, hNS,
        hCD, hSP, hMM, hRS, isDiag]

/-- An otherwise-healthy run whose final restoring setns fails. -/
def c10Env : Env := { okEnv with setnsRestoreOk := false }

/-- Claim C10: on an invocation whose mount-namespace argument is empty,
so that no switch was ever performed, the program still executes the
final setns back to the captured original namespace right after a
successful attach, and a failure of that call makes the whole run exit
with status 1 even though the mount was attached. -/
theorem C10_restoreEvenWithoutSwitch (args : Args) (env : Env)
    (hE : args.mount_namespace = "")
    (hTE : env.targetExists = true) (hTD : env.targetIsDir = true)
    (hSE : env.sourceExists = true) (hSD : env.sourceIsDir = true)
    (hOT : env.openTreeOk = true) (hOO : env.openOrigNsOk = true)
    (hCD : env.createDirOk = true) (hSP : env.setPermsOk = true)
    (hMM : env.moveMountOk = true) :
    (Mic.main args env).1 =
      [Event.openTree args.source true true,
       Event.openFile procSelfNsMnt,
       Event.createDirAll args.target,
       Event.setPermissions args.target 0o755,
       Event.moveMount args.source "" args.target true,
       Event.setns NsHandle.orig CLONE_NEWNS] ++
      (if env.setnsRestoreOk then []
       else [Event.eprintln "setns back to original namespace failed"]) ∧
    (Mic.main args env).2 = (if env.setnsRestoreOk then 0 else 1) := by
  have hNS : ("" : String).isEmpty = true := by decide
  cases hRS : env.setnsRestoreOk <;>
    simp [Mic.main, attachPhase, hE, hNS, hTE, hTD, hSE, hSD, hOT, hOO, hCD,
      hSP, hMM, hRS]

/-- Witness for claim C10 at a concrete input whose restore fails: the
restore follows the successful attach and the run exits 1. -/
theorem C10_restoreEvenWithoutSwitch_witness :
    (Mic.main argsNoNs c10Env).1 =
      [Event.openTree argsNoNs.source true true,
       Event.openFile procSelfNsMnt,
       Event.createDirAll argsNoNs.target,
       Event.setPermissions argsNoNs.target 0o755,
       Event.moveMount argsNoNs.source "" argsNoNs.target true,
       Event.setns NsHandle.orig CLONE_NEWNS,
       Event.eprintln "setns back to original namespace failed"] ∧
    (Mic.main argsNoNs c10Env).2 = 1 :=
  C10_restoreEvenWithoutSwitch argsNoNs c10Env rfl rfl rfl rfl rfl rfl rfl rfl rfl rfl
